import Mathlib

/-!
Shallow embedding of `legal_module/filing.py` (Traditional Chinese legal
document generator) and verification of the specification's claims about it.

The document draft is modelled as a list of blocks (headings and paragraphs);
`build` appends blocks exactly as `LegalDocumentGenerator.build` does, and
`create_legal_filing` is modelled with an explicit filesystem-event trace so
that statements about which files are written, converted or deleted are
expressible.
-/

namespace Filing

/-- One evidence item, mirroring the `EvidenceEntry` TypedDict: `{id, summary}`. -/
structure EvidenceEntry where
  id : String
  summary : String
deriving DecidableEq, Repr

/-- An attachment entry `{id, description}`.  The `CaseInfo` TypedDict in the
code has no such key and `build` never reads one; the field exists in the model
because a Python mapping may carry the extra key, and the spec talks about it. -/
structure AttachmentEntry where
  id : String
  description : String
deriving DecidableEq, Repr

/-- The `CaseInfo` TypedDict (`total=False`): every key optional.  An absent
key is `none`; `dict.get(k)` is `Option.getD _ d` below.  `attachments` models
an extra mapping key that the code never reads (see `AttachmentEntry`). -/
structure CaseInfo where
  title : Option String
  case_number : Option String
  parties : Option String
  court : Option String
  claims : Option String
  facts : Option String
  laws : Option (List String)
  evidence : Option (List EvidenceEntry)
  filing_type : Option String
  attachments : Option (List AttachmentEntry)
deriving DecidableEq, Repr

/-- A case record with every key absent. -/
def empty_case : CaseInfo :=
  ⟨none, none, none, none, none, none, none, none, none, none⟩

/-- The `CHINESE_NUMERALS` dict: keys 1..10, traditional numerals. -/
def CHINESE_NUMERALS : Nat → Option String
  | 1 => some "壹"
  | 2 => some "貳"
  | 3 => some "參"
  | 4 => some "肆"
  | 5 => some "伍"
  | 6 => some "陸"
  | 7 => some "柒"
  | 8 => some "捌"
  | 9 => some "玖"
  | 10 => some "拾"
  | _ => none

/-- `CHINESE_NUMERALS.get(idx, str(idx))` as used when labelling a section. -/
def section_numeral (idx : Nat) : String :=
  (CHINESE_NUMERALS idx).getD (toString idx)

/-- The `FilingType` enum. -/
inductive FilingType where
  | COMPLAINT
  | DEFENSE
  | APPEAL
  | ENFORCEMENT
  | SUPPLEMENT
  | INVESTIGATION
deriving DecidableEq, Repr

/-- The string value of each `FilingType` member. -/
def FilingType.value : FilingType → String
  | .COMPLAINT => "起訴狀"
  | .DEFENSE => "答辯狀"
  | .APPEAL => "上訴狀"
  | .ENFORCEMENT => "強制執行聲請狀"
  | .SUPPLEMENT => "補充說明狀"
  | .INVESTIGATION => "調查證據聲請狀"

/-- A block of the document draft: `add_heading` / `add_paragraph` results. -/
inductive Block where
  | heading (text : String) (level : Nat)
  | para (text : String)
deriving DecidableEq, Repr

/-- Python truthiness of an optional string: `None` and `""` are falsy. -/
def truthy : Option String → Bool
  | some s => !(s == "")
  | none => false

/-- The title computation at the top of `build`:
`title = case_info.get("filing_type") or case_info.get("title")`, then
`if not title: title = FilingType.COMPLAINT.value`. -/
def build_title (c : CaseInfo) : String :=
  let title := if truthy c.filing_type then c.filing_type else c.title
  if truthy title then title.getD "" else FilingType.COMPLAINT.value

/-- `_add_basic_info`: three labelled paragraphs, absent fields as `""`. -/
def add_basic_info (c : CaseInfo) : List Block :=
  [Block.para ("案號：" ++ c.case_number.getD ""),
   Block.para ("當事人：" ++ c.parties.getD ""),
   Block.para ("法院：" ++ c.court.getD "")]

/-- The (dynamically typed) second component of each entry of the section list
in `build`: a narrative string, the `laws` list, or the `evidence` list. -/
inductive SectionContent where
  | text (s : String)
  | items (ls : List String)
  | evs (es : List EvidenceEntry)
deriving DecidableEq, Repr

/-- One iteration of the section loop in `build`: the numbered label paragraph,
then the per-name rendering (bulleted laws, labelled evidence, or the plain
narrative paragraph).  The wildcard match arms are unreachable for the literal
section list that `build` constructs. -/
def renderSection (idx : Nat) (s : String × SectionContent) : List Block :=
  let label := section_numeral idx ++ "、" ++ s.1
  Block.para label ::
    (if s.1 = "法律依據" then
      match s.2 with
      | .items ls => ls.map (fun law => Block.para ("• " ++ law))
      | _ => []
    else if s.1 = "證據目錄" then
      match s.2 with
      | .evs es => es.map (fun ev => Block.para ("【" ++ ev.id ++ "】" ++ ev.summary))
      | _ => []
    else
      match s.2 with
      | .text t => [Block.para t]
      | _ => [])

/-- `LegalDocumentGenerator.build`: heading, basic info, then the four numbered
sections enumerated from 1, exactly as the Python loop builds them. -/
def build (c : CaseInfo) : List Block :=
  [Block.heading (build_title c) 1]
  ++ add_basic_info c
  ++ (List.enumFrom 1
       [("訴之聲明", SectionContent.text (c.claims.getD "")),
        ("事實與理由", SectionContent.text (c.facts.getD "")),
        ("法律依據", SectionContent.items (c.laws.getD [])),
        ("證據目錄", SectionContent.evs (c.evidence.getD []))]).flatMap
      (fun p => renderSection p.1 p.2)

/-- Python's `s.rsplit(sep, 1)` decomposition on a character list: `none` when
`sep` does not occur, otherwise `some (before, after)` split at the LAST
occurrence of `sep`. -/
def rsplitLast (sep : Char) : List Char → Option (List Char × List Char)
  | [] => none
  | c :: cs =>
    match rsplitLast sep cs with
    | some (pre, post) => some (c :: pre, post)
    | none => if c = sep then some ([], cs) else none

/-- Everything before the last dot of a character list, or the whole list when
there is no dot. -/
def rsplit_dot_headL (l : List Char) : List Char :=
  match rsplitLast '.' l with
  | some (pre, _) => pre
  | none => l

/-- `output_path.rsplit(".", 1)[0]`: everything before the last dot, or the
whole string when there is no dot. -/
def rsplit_dot_head (s : String) : String :=
  String.mk (rsplit_dot_headL s.data)

/-- Errors raised by the module (all are `RuntimeError` in the code). -/
inductive PyError where
  | runtimeError (msg : String)
deriving DecidableEq, Repr

/-- Filesystem effects of one `create_legal_filing` call.  `save` is
`generator.save(path)` (writes the rich document), `convert` is
`docx2pdf_convert(src, dst)` (writes the fixed-layout file at `dst`).
`delete` is never produced by the code; the constructor exists so that
claims about temporary-file cleanup are statable. -/
inductive FsEvent where
  | save (path : String)
  | convert (src : String) (dst : String)
  | delete (path : String)
deriving DecidableEq, Repr

/-- Availability of the two optional dependencies: `Document` (python-docx)
and `docx2pdf_convert` (docx2pdf), each `None` in the code when missing. -/
structure Deps where
  docx_available : Bool
  docx2pdf_available : Bool
deriving DecidableEq, Repr

/-- `create_legal_filing`: construct the generator (fails when python-docx is
missing), `build`, `save(output_path)`, and when `export_pdf` also convert to
`output_path.rsplit(".", 1)[0] + ".pdf"` (fails first when docx2pdf is
missing).  Returns the Python return value together with the trace of
filesystem effects performed before returning or raising. -/
def create_legal_filing (deps : Deps) (case_info : CaseInfo)
    (output_path : String) (export_pdf : Bool) :
    Except PyError (String ⊕ String × String) × List FsEvent :=
  if !deps.docx_available then
    (.error (.runtimeError
      "python-docx is required to generate documents. Please install it via 'pip install python-docx'."),
     [])
  else
    let _document := build case_info
    let trace := [FsEvent.save output_path]
    if export_pdf then
      if !deps.docx2pdf_available then
        (.error (.runtimeError
          "docx2pdf is required for exporting PDF. Install it via 'pip install docx2pdf'."),
         trace)
      else
        let pdf_path := rsplit_dot_head output_path ++ ".pdf"
        (.ok (.inr (output_path, pdf_path)), trace ++ [FsEvent.convert output_path pdf_path])
    else
      (.ok (.inl output_path), trace)

/-- The Python default value of the `output_path` parameter. -/
def DEFAULT_OUTPUT_PATH : String := "法律文書_起訴狀.docx"

/-- A call `create_legal_filing(case_info)` with both optional parameters
omitted, so Python supplies `output_path = DEFAULT_OUTPUT_PATH` and
`export_pdf = False`. -/
def create_legal_filing_default (deps : Deps) (case_info : CaseInfo) :
    Except PyError (String ⊕ String × String) × List FsEvent :=
  create_legal_filing deps case_info DEFAULT_OUTPUT_PATH false

/-- Modelled from the spec: "the first path with its extension replaced by the
fixed-layout extension (same stem)" — the extension being the part of the FINAL
path component (after the last `/`) that follows its last dot; a component with
no dot keeps its full stem and the extension is appended. -/
def pdf_path_spec (p : String) : String :=
  match rsplitLast '/' p.data with
  | some (d, b) => String.mk (d ++ '/' :: rsplit_dot_headL b) ++ ".pdf"
  | none => String.mk (rsplit_dot_headL p.data) ++ ".pdf"

/-- The characters of the final path component: what follows the last `/`, or
the whole path when it has no `/`. -/
def after_last_slash (p : String) : List Char :=
  match rsplitLast '/' p.data with
  | some (_, b) => b
  | none => p.data

/-- The section names the spec's document layout enumerates, in order. -/
def SPEC_SECTION_NAMES : List String :=
  ["訴之聲明", "事實與理由", "法律依據", "證據目錄", "附件"]

/-- A paragraph that is one of the spec's numbered section headers: its text
ends in `、` followed by one of the spec's section names. -/
def Block.isSectionHeader : Block → Bool
  | .para t => SPEC_SECTION_NAMES.any (fun n => ("、" ++ n).data.isSuffixOf t.data)
  | .heading _ _ => false

/-- A paragraph that closes with the attachments-section label `、附件`. -/
def hasAttachmentsSection (blocks : List Block) : Bool :=
  blocks.any (fun b => match b with
    | .para t => ("、附件").data.isSuffixOf t.data
    | _ => false)

/-- Modelled from the spec: the conversion step writes the intermediate rich
document at a scoped temporary path — one distinct from the requested output
files — and deletes it before returning. -/
def usesScopedTemp (trace : List FsEvent) (outputs : List String) : Prop :=
  ∃ tmp, tmp ∉ outputs ∧ FsEvent.save tmp ∈ trace ∧ FsEvent.delete tmp ∈ trace

/-- A record whose only present keys are an empty `filing_type` and a `title`. -/
def case_empty_filing_type : CaseInfo :=
  ⟨some "答辯狀", none, none, none, none, none, none, none, some "", none⟩

/-- A record whose only present key is a one-entry `attachments` list. -/
def case_with_attachments : CaseInfo :=
  ⟨none, none, none, none, none, none, none, none, none, some [⟨"附1", "合約影本"⟩]⟩

theorem string_mk_data (s : String) : String.mk s.data = s := by
  cases s
  rfl

theorem rsplitLast_eq_none_iff (sep : Char) (l : List Char) :
    rsplitLast sep l = none ↔ sep ∉ l := by
  induction l with
  | nil => simp [rsplitLast]
  | cons c cs ih =>
    simp only [rsplitLast, List.mem_cons]
    cases hcs : rsplitLast sep cs with
    | some pr =>
      obtain ⟨pre, post⟩ := pr
      have hmem : sep ∈ cs := by
        by_contra hn
        have h0 := ih.mpr hn
        rw [hcs] at h0
        exact Option.noConfusion h0
      simp [hmem]
    | none =>
      have hcs' : sep ∉ cs := ih.mp hcs
      by_cases hc : c = sep
      · simp [hc]
      · simp only [if_neg hc]
        simp [hcs']
        exact fun h => hc h.symm

theorem rsplitLast_mem_some {sep : Char} {l : List Char} (h : sep ∈ l) :
    ∃ pre post, rsplitLast sep l = some (pre, post) := by
  cases hl : rsplitLast sep l with
  | none =>
    rw [rsplitLast_eq_none_iff] at hl
    exact absurd h hl
  | some pr =>
    obtain ⟨pre, post⟩ := pr
    exact ⟨pre, post, rfl⟩

theorem rsplitLast_eq_some {sep : Char} {l d b : List Char}
    (h : rsplitLast sep l = some (d, b)) : l = d ++ sep :: b := by
  induction l generalizing d b with
  | nil => simp [rsplitLast] at h
  | cons c cs ih =>
    simp only [rsplitLast] at h
    cases hcs : rsplitLast sep cs with
    | some pr =>
      obtain ⟨pre, post⟩ := pr
      rw [hcs] at h
      simp only [Option.some.injEq, Prod.mk.injEq] at h
      obtain ⟨h1, h2⟩ := h
      subst h2
      rw [← h1, ih hcs]
      simp
    | none =>
      rw [hcs] at h
      by_cases hc : c = sep
      · subst hc
        rw [if_pos rfl] at h
        simp only [Option.some.injEq, Prod.mk.injEq] at h
        obtain ⟨h1, h2⟩ := h
        subst h2
        rw [← h1]
        simp
      · rw [if_neg hc] at h
        exact Option.noConfusion h

theorem rsplitLast_append {sep : Char} {m : List Char} (hm : sep ∈ m) (k : List Char) :
    rsplitLast sep (k ++ m)
      = (rsplitLast sep m).map (fun pr => (k ++ pr.1, pr.2)) := by
  obtain ⟨pre, post, h⟩ := rsplitLast_mem_some hm
  induction k with
  | nil => simp [h]
  | cons c k ih =>
    rw [List.cons_append]
    simp only [rsplitLast, ih, h, Option.map_some']
    simp

theorem pdf_agree (p : String)
    (h : '.' ∈ after_last_slash p ∨ '.' ∉ p.data) :
    rsplit_dot_head p ++ ".pdf" = pdf_path_spec p := by
  cases hs : rsplitLast '/' p.data with
  | none =>
    have hR : pdf_path_spec p = String.mk (rsplit_dot_headL p.data) ++ ".pdf" := by
      unfold pdf_path_spec
      rw [hs]
    unfold rsplit_dot_head
    rw [hR]
  | some pr =>
    obtain ⟨d, b⟩ := pr
    have hR : pdf_path_spec p = String.mk (d ++ '/' :: rsplit_dot_headL b) ++ ".pdf" := by
      unfold pdf_path_spec
      rw [hs]
    have hafter : after_last_slash p = b := by
      unfold after_last_slash
      rw [hs]
    have hp : p.data = d ++ '/' :: b := rsplitLast_eq_some hs
    rw [hafter] at h
    unfold rsplit_dot_head
    rw [hR]
    rcases h with hb | hnd
    · obtain ⟨pre, post, hpre⟩ := rsplitLast_mem_some hb
      have hmem : '.' ∈ '/' :: b := List.mem_cons_of_mem _ hb
      have hall : rsplitLast '.' p.data = some (d ++ '/' :: pre, post) := by
        rw [hp, rsplitLast_append hmem d]
        simp [rsplitLast, hpre]
      have hL1 : rsplit_dot_headL p.data = d ++ '/' :: pre := by
        unfold rsplit_dot_headL
        rw [hall]
      have hL2 : rsplit_dot_headL b = pre := by
        unfold rsplit_dot_headL
        rw [hpre]
      rw [hL1, hL2]
    · have hnb : '.' ∉ b := by
        intro hb'
        exact hnd (by rw [hp]; exact List.mem_append_right _ (List.mem_cons_of_mem _ hb'))
      have h1 : rsplitLast '.' p.data = none := (rsplitLast_eq_none_iff _ _).mpr hnd
      have h2 : rsplitLast '.' b = none := (rsplitLast_eq_none_iff _ _).mpr hnb
      have hL1 : rsplit_dot_headL p.data = p.data := by
        unfold rsplit_dot_headL
        rw [h1]
      have hL2 : rsplit_dot_headL b = b := by
        unfold rsplit_dot_headL
        rw [h2]
      rw [hL1, hL2, hp]

/-- C1 counterexample: a record whose `attachments` key is present and
non-empty, yet the document `build` produces contains no Attachments
(`附件`) section header and no `【id】description` paragraph for the entry,
refuting the claimed "if and only if". -/
theorem c1_counterexample :
    (case_with_attachments.attachments.getD []).length = 1 ∧
    hasAttachmentsSection (build case_with_attachments) = false ∧
    (build case_with_attachments).countP
      (fun b => b = Block.para "【附1】合約影本") = 0 := by
  decide

/-- C1 (amended): `build` ignores the `attachments` key entirely — two records
differing only in `attachments` produce identical documents, so no Attachments
section or attachment paragraph is ever emitted from it. -/
theorem c1_attachments_ignored
    (t cn pa co cl fa : Option String) (la : Option (List String))
    (ev : Option (List EvidenceEntry)) (ft : Option String)
    (a a' : Option (List AttachmentEntry)) :
    build ⟨t, cn, pa, co, cl, fa, la, ev, ft, a⟩
      = build ⟨t, cn, pa, co, cl, fa, la, ev, ft, a'⟩ := rfl

/-- C2 counterexample: on the all-absent record the document contains exactly
FOUR numbered section headers, not the five the claim states. -/
theorem c2_counterexample :
    (build empty_case).countP (fun b => b.isSectionHeader) = 4 ∧
    (build empty_case).countP (fun b => b.isSectionHeader) ≠ 5 := by
  decide

/-- C2 (amended): for the record with every optional field absent, `build`
succeeds and the document is exactly the default heading `起訴狀`, the three
empty-valued basic-info paragraphs, and FOUR section headers in fixed order
(`壹、訴之聲明`, `貳、事實與理由`, `參、法律依據`, `肆、證據目錄`), with an empty
paragraph for each narrative field and nothing under laws or evidence. -/
theorem c2_empty_record_document :
    build empty_case =
      [Block.heading "起訴狀" 1,
       Block.para "案號：", Block.para "當事人：", Block.para "法院：",
       Block.para "壹、訴之聲明", Block.para "",
       Block.para "貳、事實與理由", Block.para "",
       Block.para "參、法律依據", Block.para "肆、證據目錄"] := rfl

/-- C3 counterexample: for output path `a.b/c` — whose only dot lies in a
directory component — the derived second path is `a.pdf`, not the
extension-replaced same-stem path `a.b/c.pdf` the claim requires. -/
theorem c3_counterexample :
    (create_legal_filing ⟨true, true⟩ empty_case "a.b/c" true).1
      = Except.ok (Sum.inr ("a.b/c", "a.pdf")) ∧
    pdf_path_spec "a.b/c" = "a.b/c.pdf" ∧
    ("a.pdf" : String) ≠ "a.b/c.pdf" := by
  refine ⟨rfl, rfl, by decide⟩

/-- C3 (amended): when the last dot of the output path lies in its final path
component (or the path has no dot at all), the pair returned for a fixed-layout
export with no explicit path has as second element the first path with its
extension replaced by `.pdf` (same stem).  The code truncates at the last dot
of the whole string, so paths whose only dot sits in a directory component
deviate. -/
theorem c3_pdf_path_amended (c : CaseInfo) (p : String)
    (h : '.' ∈ after_last_slash p ∨ '.' ∉ p.data) :
    (create_legal_filing ⟨true, true⟩ c p true).1
      = Except.ok (Sum.inr (p, pdf_path_spec p)) := by
  have h1 : (create_legal_filing ⟨true, true⟩ c p true).1
      = Except.ok (Sum.inr (p, rsplit_dot_head p ++ ".pdf")) := rfl
  rw [h1, pdf_agree p h]

/-- Witness for C3 (amended) at the well-behaved path `out.docx`. -/
theorem c3_witness :
    ('.' ∈ after_last_slash "out.docx" ∨ '.' ∉ "out.docx".data) ∧
    (create_legal_filing ⟨true, true⟩ empty_case "out.docx" true).1
      = Except.ok (Sum.inr ("out.docx", pdf_path_spec "out.docx")) :=
  ⟨Or.inl (by decide),
   c3_pdf_path_amended empty_case "out.docx" (Or.inl (by decide))⟩

/-- C4 counterexample: a fixed-layout export performs exactly a save at the
requested output path and a conversion of that very file — no write to a
scoped temporary location distinct from the requested outputs and no deletion
ever happens, refuting the claimed temporary-file discipline. -/
theorem c4_counterexample :
    (create_legal_filing ⟨true, true⟩ empty_case "out.docx" true).2
      = [FsEvent.save "out.docx", FsEvent.convert "out.docx" "out.pdf"] ∧
    ¬ usesScopedTemp (create_legal_filing ⟨true, true⟩ empty_case "out.docx" true).2
        ["out.docx", "out.pdf"] := by
  refine ⟨rfl, ?_⟩
  rintro ⟨tmp, hnot, hsave, hdel⟩
  have ht : (create_legal_filing ⟨true, true⟩ empty_case "out.docx" true).2
      = [FsEvent.save "out.docx", FsEvent.convert "out.docx" "out.pdf"] := rfl
  rw [ht] at hdel
  simp at hdel

/-- C4 (amended): a successful fixed-layout export performs exactly two
filesystem effects — saving the rich document at the requested output path and
converting that same file to the derived pdf path.  No intermediate file is
written elsewhere and nothing is deleted, so only the requested output files
are ever created. -/
theorem c4_no_temp_files (c : CaseInfo) (p : String) :
    (create_legal_filing ⟨true, true⟩ c p true).2
      = [FsEvent.save p, FsEvent.convert p (rsplit_dot_head p ++ ".pdf")] := rfl

/-- C5 counterexample: a record whose `filing_type` key is present (with value
`""`) does not determine the heading — the heading falls through to `title`. -/
theorem c5_counterexample :
    case_empty_filing_type.filing_type = some "" ∧
    (build case_empty_filing_type).head? = some (Block.heading "答辯狀" 1) ∧
    ("答辯狀" : String) ≠ "" := by
  decide

/-- C5 (amended): the heading is `filing_type` when present AND non-empty,
else `title` when present AND non-empty, else the default `起訴狀`; an
empty-string value behaves like an absent key (Python truthiness). -/
theorem c5_heading_amended (c : CaseInfo) :
    (∀ s, c.filing_type = some s → s ≠ "" →
      (build c).head? = some (Block.heading s 1)) ∧
    ((c.filing_type = none ∨ c.filing_type = some "") →
      ∀ t, c.title = some t → t ≠ "" →
      (build c).head? = some (Block.heading t 1)) ∧
    ((c.filing_type = none ∨ c.filing_type = some "") →
      (c.title = none ∨ c.title = some "") →
      (build c).head? = some (Block.heading "起訴狀" 1)) := by
  have hh : (build c).head? = some (Block.heading (build_title c) 1) := rfl
  refine ⟨?_, ?_, ?_⟩
  · intro s hs hne
    rw [hh]
    simp [build_title, truthy, hs, hne]
  · rintro (hf | hf) t ht hne <;> rw [hh] <;>
      simp [build_title, truthy, hf, ht, hne]
  · rintro (hf | hf) (ht | ht) <;> rw [hh] <;>
      simp [build_title, truthy, hf, ht, FilingType.value]

/-- Witness for C5 (amended): a present non-empty `filing_type` fixes the
heading. -/
theorem c5_witness :
    (build (⟨none, none, none, none, none, none, none, none, some "上訴狀", none⟩ :
        CaseInfo)).head?
      = some (Block.heading "上訴狀" 1) :=
  (c5_heading_amended _).1 "上訴狀" rfl (by decide)

/-- C6: the `法律依據` section header always appears, followed by exactly one
`• `-prefixed paragraph per entry of `laws`, in input order (and exactly as
many bulleted paragraphs as there are entries). -/
theorem c6_laws_section (c : CaseInfo) :
    build c =
      [Block.heading (build_title c) 1,
       Block.para ("案號：" ++ c.case_number.getD ""),
       Block.para ("當事人：" ++ c.parties.getD ""),
       Block.para ("法院：" ++ c.court.getD ""),
       Block.para "壹、訴之聲明", Block.para (c.claims.getD ""),
       Block.para "貳、事實與理由", Block.para (c.facts.getD "")]
      ++ (Block.para "參、法律依據"
          :: (c.laws.getD []).map (fun law => Block.para ("• " ++ law)))
      ++ (Block.para "肆、證據目錄"
          :: (c.evidence.getD []).map
               (fun ev => Block.para ("【" ++ ev.id ++ "】" ++ ev.summary))) ∧
    ((c.laws.getD []).map (fun law => Block.para ("• " ++ law))).length
      = (c.laws.getD []).length := by
  constructor
  · simp [build, renderSection, add_basic_info, section_numeral, CHINESE_NUMERALS]
  · simp

/-- C7: the `證據目錄` section renders one paragraph `【id】summary` per
`evidence` entry, in input order, at the end of the document. -/
theorem c7_evidence_section (c : CaseInfo) :
    build c =
      ([Block.heading (build_title c) 1]
       ++ add_basic_info c
       ++ [Block.para "壹、訴之聲明", Block.para (c.claims.getD ""),
           Block.para "貳、事實與理由", Block.para (c.facts.getD ""),
           Block.para "參、法律依據"]
       ++ (c.laws.getD []).map (fun law => Block.para ("• " ++ law))
       ++ [Block.para "肆、證據目錄"])
      ++ (c.evidence.getD []).map
           (fun ev => Block.para ("【" ++ ev.id ++ "】" ++ ev.summary)) ∧
    ((c.evidence.getD []).map
        (fun ev => Block.para ("【" ++ ev.id ++ "】" ++ ev.summary))).length
      = (c.evidence.getD []).length := by
  constructor
  · simp [build, renderSection, add_basic_info, section_numeral, CHINESE_NUMERALS]
  · simp

/-- C8: when docx2pdf is unavailable and a pdf export is requested, the call
fails immediately with the missing-dependency `RuntimeError`; the only
filesystem effect is the already-performed save of the rich document, so no
fixed-layout file is created and nothing is retried. -/
theorem c8_conversion_unavailable (c : CaseInfo) (p : String) :
    create_legal_filing ⟨true, false⟩ c p true
      = (Except.error (PyError.runtimeError
          "docx2pdf is required for exporting PDF. Install it via 'pip install docx2pdf'."),
         [FsEvent.save p]) := rfl

/-- C9: the section-number label is the traditional numeral from
`CHINESE_NUMERALS` for each index the table holds (1..10), and every index
beyond the table falls back to the plain Arabic numeral string. -/
theorem c9_numeral_fallback :
    (section_numeral 1 = "壹" ∧ section_numeral 2 = "貳" ∧
     section_numeral 3 = "參" ∧ section_numeral 4 = "肆" ∧
     section_numeral 5 = "伍" ∧ section_numeral 6 = "陸" ∧
     section_numeral 7 = "柒" ∧ section_numeral 8 = "捌" ∧
     section_numeral 9 = "玖" ∧ section_numeral 10 = "拾") ∧
    ∀ i, 10 < i → section_numeral i = toString i := by
  refine ⟨by decide, ?_⟩
  intro i hi
  obtain ⟨n, rfl⟩ : ∃ n, i = n + 11 := ⟨i - 11, by omega⟩
  rfl

/-- Witness for C9 at the first index beyond the table. -/
theorem c9_witness : 10 < 11 ∧ section_numeral 11 = toString 11 :=
  ⟨by decide, c9_numeral_fallback.2 11 (by decide)⟩

/-- C10: a call with the output-path argument omitted saves the document at
the Python default path `法律文書_起訴狀.docx` and returns that path (no pdf
export being requested). -/
theorem c10_default_output_path (c : CaseInfo) (b : Bool) :
    create_legal_filing_default ⟨true, b⟩ c
      = (Except.ok (Sum.inl DEFAULT_OUTPUT_PATH), [FsEvent.save DEFAULT_OUTPUT_PATH])
      ∧ DEFAULT_OUTPUT_PATH = "法律文書_起訴狀.docx" := ⟨rfl, rfl⟩

end Filing
